import Mathlib

/-!
Verification of the schema-compiler core of this repository
(`pydantic/_internal/_generate_schema.py`, `pydantic/errors.py`,
`pydantic/_internal/_typing_extra.py`) against its natural-language
specification.

The Python code is shallowly embedded: type descriptors (the inputs of
`GenerateSchema.generate_schema`) become an inductive `Desc`, core schemas
become an inductive `Schema`, and raised exceptions become an error type
`PyErr` threaded through `Except`.  Python `dict` update semantics are
modelled on association lists (update keeps the position of an existing
key, new keys are appended).  Where a runtime fact of CPython decides a
branch (a name that is only imported under `TYPE_CHECKING` is undefined at
runtime; `isinstance` against a `typing` special form raises `TypeError`;
an attribute that no class in the file defines raises `AttributeError`;
parametrized generic aliases are not instances of `type` on current
CPython) the embedding records that fact at the corresponding branch, with
a comment naming the source line.
-/

set_option autoImplicit false

namespace PydanticGen

/-- A single-quote character, kept out of string literals. -/
def sq : String := "\x27"

/-- Python values that can appear as `Literal` members in this development. -/
inductive PyVal where
  | int (n : Int)
  | str (s : String)
  | bool (b : Bool)
  | none
  deriving DecidableEq, Repr

/-- Exceptions that the embedded code can raise.

`userError` embeds `PydanticUserError` from `pydantic/errors.py` (carrying
its message and its `code` argument); `nameError` carries the undefined
name (`NameError: name ... is not defined`); `attributeError` carries the
missing attribute name; `undefinedAnnot` embeds
`PydanticUndefinedAnnotation` (a `NameError` subclass, see errors.py lines
32-42), carrying the unresolved name and the message. -/
inductive PyErr where
  | nameError (name : String)
  | attributeError (attr : String)
  | typeError (message : String)
  | runtimeError (message : String)
  | userError (message : String) (code : String)
  | undefinedAnnot (name : String) (message : String)
  deriving DecidableEq, Repr

/-- The `code` attribute of a raised Pydantic error, when it is a
`PydanticErrorMixin` subclass (errors.py lines 11-27): `PydanticUserError`
carries the code it was constructed with; `PydanticUndefinedAnnotation`
always passes `code = undefined-annotation` (errors.py line 42). -/
def PyErr.errorCode : PyErr → Option String
  | .userError _ c => some c
  | .undefinedAnnot _ _ => some "undefined-annotation"
  | _ => Option.none

/-- Embeds `PydanticSchemaGenerationError` (errors.py lines 67-75): a
`PydanticUserError` subclass whose constructor fixes
`code = schema-for-unknown-type`. -/
def PydanticSchemaGenerationError (message : String) : PyErr :=
  .userError message "schema-for-unknown-type"

/-- Embeds `PydanticUndefinedAnnotation` (errors.py lines 32-42): constructor
takes the unresolved `name` and a `message`; the code is fixed to
`undefined-annotation`. -/
def PydanticUndefinedAnnotErr (name message : String) : PyErr :=
  .undefinedAnnot name message

/-- Whether the error is (a subclass of) Python `NameError`:
`PydanticUndefinedAnnotation` subclasses `NameError` (errors.py line 32). -/
def PyErr.isNameErrorClass : PyErr → Bool
  | .nameError _ => true
  | .undefinedAnnot _ _ => true
  | _ => false

/-- The `PydanticErrorCodes` `Literal` set, verbatim from errors.py line 9. -/
def pydanticErrorCodes : List String :=
  ["class-not-fully-defined", "custom-json-schema", "decorator-missing-field",
   "discriminator-no-field", "discriminator-alias-type",
   "discriminator-needs-literal", "discriminator-alias",
   "discriminator-validator", "callable-discriminator-no-tag",
   "typed-dict-version", "model-field-overridden",
   "model-field-missing-annotation", "config-both", "removed-kwargs",
   "invalid-for-json-schema", "json-schema-already-used",
   "base-model-instantiated", "undefined-annotation",
   "schema-for-unknown-type", "import-error",
   "create-model-field-definitions", "create-model-config-base",
   "validator-no-fields", "validator-invalid-fields",
   "validator-instance-method", "root-validator-pre-skip",
   "model-serializer-instance-method", "validator-field-config-info",
   "validator-v1-signature", "validator-signature",
   "field-serializer-signature", "model-serializer-signature",
   "multiple-field-serializers", "invalid_annotated_type",
   "type-adapter-config-unused", "root-model-extra",
   "unevaluable-type-annotation", "dataclass-init-false-extra-allow",
   "clashing-init-and-init-var", "model-config-invalid-field-name",
   "with-config-on-model", "dataclass-on-model"]

/-- Compiled core schema nodes (`pydantic_core.core_schema` constructors
used by `_generate_schema.py`). `custom` stands for an arbitrary
user-supplied schema object returned by a hook. The validator-wrapper
constructors embed the eight `core_schema.*_validator_function` builders
named in `_VALIDATOR_F_MATCH` (line 725); the wrapped function is
identified by name and resolved by the executor environment. -/
inductive Schema where
  | any
  | str
  | bool
  | int
  | float
  | bytes
  | noneS
  | list (item : Schema)
  | set (item : Schema)
  | frozenset (item : Schema)
  | dict (key : Schema) (value : Schema)
  | tupleVariable (item : Schema)
  | tuplePositional (items : List Schema)
  | union (members : List Schema)
  | literal (values : List PyVal)
  | typedDict (fields : List (String × Schema)) (requiredKeys : List String)
      (total : Bool)
  | model (clsName : String) (fields : List (String × Schema))
      (computedFields : List (String × String))
      (validators : List String) (serializers : List String)
      (modelValidators : List String) (modelSerializers : List String)
  | definitionRef (ref : String)
  | noInfoBefore (f : String) (inner : Schema)
  | noInfoAfter (f : String) (inner : Schema)
  | noInfoPlain (f : String)
  | noInfoWrap (f : String) (inner : Schema)
  | withInfoBefore (f : String) (inner : Schema) (fieldName : Option String)
  | withInfoAfter (f : String) (inner : Schema) (fieldName : Option String)
  | withInfoPlain (f : String) (fieldName : Option String)
  | withInfoWrap (f : String) (inner : Schema) (fieldName : Option String)
  | custom (tag : Nat)

/-- A member of a `Literal[...]` parameter list: either a plain value or a
nested `Literal[...]` alias (PEP 586 allows arbitrary nesting). -/
inductive LitElem where
  | val (v : PyVal)
  | lit (args : List LitElem)

mutual

/-- The runtime shape of a type descriptor, as far as the code under
`src/` inspects it.  The `clsX` constructors are the exact builtin classes
compared with `==` in `generate_schema` (lines 205-225); `cls` is any
other class object (including `BaseModel` subclasses and user classes);
`genericAlias` is a parametrized alias such as `tuple[int, str]` (not an
instance of `type` on current CPython); `literalAlias` is a
`Literal[...]` alias; `ellipsis` is the `...` singleton. -/
inductive Shape where
  | strInst (s : String)
  | clsStr
  | clsBool
  | clsInt
  | clsFloat
  | clsBytes
  | clsList
  | clsDict
  | clsSet
  | clsFrozenset
  | clsTuple
  | cls (name : String)
  | forwardRef (name : String)
  | typeVar (name : String)
  | typeAliasType (name : String)
  | literalAlias (args : List LitElem)
  | genericAlias (origin : String) (args : List Desc)
  | ellipsis

/-- A type descriptor: its two hook attributes plus its runtime shape.

The first component models the `__get_pydantic_core_schema__` attribute:
`none` means the object has no such attribute; `some r` means the
attribute exists and calling it (with this source and handler) returns `r`
(`r = none` is Python `None`).  The second component likewise models the
`__pydantic_core_schema__` attribute and its value. -/
inductive Desc where
  | mk (getHook : Option (Option Schema))
      (precomputed : Option (Option Schema)) (shape : Shape)

end

/-- The `__get_pydantic_core_schema__` attribute of a descriptor. -/
def Desc.getHook : Desc → Option (Option Schema)
  | .mk h _ _ => h

/-- The `__pydantic_core_schema__` attribute of a descriptor. -/
def Desc.precomputed : Desc → Option (Option Schema)
  | .mk _ p _ => p

/-- The runtime shape of a descriptor. -/
def Desc.shape : Desc → Shape
  | .mk _ _ s => s

/-- A descriptor with neither hook attribute. -/
def plain (s : Shape) : Desc := .mk Option.none Option.none s

/-- Models `isinstance(obj, type)`: true exactly for class objects.  Parametrized
generic aliases, `Literal[...]` aliases, `ForwardRef`, `TypeVar`,
`TypeAliasType` instances, strings and `Ellipsis` are not `type`
instances on current CPython. -/
def isTypeInst (d : Desc) : Bool :=
  match d.shape with
  | .clsStr | .clsBool | .clsInt | .clsFloat | .clsBytes
  | .clsList | .clsDict | .clsSet | .clsFrozenset | .clsTuple
  | .cls _ => true
  | _ => false

/-- An abbreviated `repr` for descriptors, used only to build the
`PydanticSchemaGenerationError` message of `match_type` line 442. -/
def pyRepr (d : Desc) : String :=
  match d.shape with
  | .ellipsis => "Ellipsis"
  | .cls n => "<class " ++ sq ++ n ++ sq ++ ">"
  | .literalAlias _ => "typing.Literal[...]"
  | .genericAlias o _ => o ++ "[...]"
  | .strInst s => sq ++ s ++ sq
  | .forwardRef n => "ForwardRef(" ++ sq ++ n ++ sq ++ ")"
  | .typeVar n => "~" ++ n
  | .typeAliasType n => n
  | _ => "<class>"

/-- Embeds `GenerateSchema._generate_schema_from_property` (lines 302-319): if the
object has `__get_pydantic_core_schema__`, call it; a non-`None` result is
returned.  Otherwise (attribute absent, or its call returned `None`) fall
through to the `__pydantic_core_schema__` attribute; a present non-`None`
value is returned; else `None`. -/
def generateSchemaFromProperty (obj : Desc) : Option Schema :=
  match obj.getHook with
  | some (some schema) => some schema
  | _ =>
    match obj.precomputed with
    | some (some schema) => some schema
    | _ => Option.none

/-- Embeds `GenerateSchema.str_schema` (lines 167-169). -/
def str_schema : Schema := Schema.str

/-- Embeds `GenerateSchema.match_type` (lines 321-442), restricted to the shapes
in `Shape`.

Line 335 evaluates `issubclass(obj, BaseModel)` for every `type` input;
`BaseModel` is imported only under `TYPE_CHECKING` (line 42-44), so the
name lookup raises `NameError` at runtime before any branch can match.
The `ForwardRef` / `TypeVar` / `TypeAliasType` branches (lines 355-362)
call `self._forward_ref_schema` / `self._type_var_schema` /
`self._type_alias_schema`, none of which is defined anywhere in the class,
so they raise `AttributeError`.  Every remaining guard on our non-`type`
shapes is of the form `isinstance(obj, type) and ...` and short-circuits
to `False`, so control falls through to line 442. -/
def matchType (obj : Desc) : Except PyErr Schema :=
  if isTypeInst obj then
    -- line 335: `issubclass(obj, BaseModel)`; `BaseModel` undefined at runtime
    .error (.nameError "BaseModel")
  else
    match obj.shape with
    | .forwardRef _ => .error (.attributeError "_forward_ref_schema")
    | .typeVar _ => .error (.attributeError "_type_var_schema")
    | .typeAliasType _ => .error (.attributeError "_type_alias_schema")
    | _ =>
      -- line 442
      .error (PydanticSchemaGenerationError
        ("Unable to generate schema for " ++ pyRepr obj))

/-- The body of `GenerateSchema.generate_schema` after the hook probe
(lines 202-227): a bare string maps to the `str` schema; the exact builtin
classes are matched with `==` and mapped directly; everything else goes to
`match_type`. -/
def generateSchemaRest (obj : Desc) : Except PyErr Schema :=
  match obj.shape with
  | .strInst _ => .ok str_schema
  | .clsStr => .ok str_schema
  | .clsBool => .ok .bool
  | .clsInt => .ok .int
  | .clsFloat => .ok .float
  | .clsBytes => .ok .bytes
  | .clsList => .ok (.list .any)
  | .clsDict => .ok (.dict .any .any)
  | .clsSet => .ok (.set .any)
  | .clsFrozenset => .ok (.frozenset .any)
  | .clsTuple => .ok (.tupleVariable .any)
  | _ => matchType obj

/-- Embeds `GenerateSchema.generate_schema` (lines 174-227): when
`from_dunder_get_core_schema` is set, probe the two hook attributes first
and return a non-`None` result as the final schema; otherwise proceed with
the structural cases. -/
def generate_schema (fromDunderGetCoreSchema : Bool) (obj : Desc) :
    Except PyErr Schema :=
  match (if fromDunderGetCoreSchema then generateSchemaFromProperty obj
         else Option.none) with
  | some schema => .ok schema
  | Option.none => generateSchemaRest obj

/-- Models `get_args` on a descriptor: the parameter list of a generic alias,
`()` for anything unparametrized. -/
def getArgs (d : Desc) : List Desc :=
  match d.shape with
  | .genericAlias _ args => args
  | _ => []

/-- Models the check `args[1] is ...` for a two-element parameter list: the second argument
is the `Ellipsis` singleton. -/
def isVariadicPair : List Desc → Bool
  | [_, b] =>
    match b.shape with
    | .ellipsis => true
    | _ => false
  | _ => false

/-- Embeds `GenerateSchema._tuple_schema` (lines 603-620): no arguments gives a
variable-length tuple of `any`; exactly two arguments with `...` second
gives a variable-length tuple of the compiled first argument; any other
argument list compiles each argument and builds a positional tuple. -/
def tupleSchema (tupleType : Desc) : Except PyErr Schema :=
  match getArgs tupleType with
  | [] => .ok (.tupleVariable .any)
  | a :: rest =>
    if isVariadicPair (a :: rest) then do
      let itemSchema ← generate_schema true a
      return .tupleVariable itemSchema
    else do
      let itemSchemas ← (a :: rest).mapM (generate_schema true)
      return .tuplePositional itemSchemas

/-- Models `get_args` of a `Literal[...]` alias: its member list, `()` otherwise. -/
def getLitArgs (d : Desc) : List LitElem :=
  match d.shape with
  | .literalAlias args => args
  | _ => []

/-- Embeds `GenerateSchema._literal_schema` (lines 532-545): empty argument list
gives `any`; otherwise the loop body evaluates `isinstance(arg, Literal)`
on its first iteration.  `Literal` is a `typing` special form and CPython
raises `TypeError` when a special form is used as the second argument of
`isinstance` (`_SpecialForm.__instancecheck__`), so the call raises before
any value is collected. -/
def literalSchema (literalType : Desc) : Except PyErr Schema :=
  match getLitArgs literalType with
  | [] => .ok .any
  | _ :: _ =>
    .error (.typeError "typing.Literal cannot be used with isinstance()")

/-- The loop of `all_literal_values` (`_typing_extra.py` lines 52-59) over
the members of a `Literal` alias: a nested `Literal` member is flattened
recursively with `extend`, a plain value is appended. -/
def allLiteralValuesList : List LitElem → List PyVal
  | [] => []
  | e :: rest =>
    (match e with
     | .val v => [v]
     | .lit sub => allLiteralValuesList sub) ++ allLiteralValuesList rest

/-- Embeds `all_literal_values` (`_typing_extra.py` lines 47-60): full recursive
flattening of a (possibly nested) `Literal` alias into its ordered value
list; a non-`Literal` input yields `[]`. -/
def all_literal_values (d : Desc) : List PyVal :=
  match d.shape with
  | .literalAlias args => allLiteralValuesList args
  | _ => []

/-- A field decorator's info as consulted by
`check_decorator_fields_exist`: its `check_fields` flag and its `fields`
tuple. -/
structure DecInfo where
  check_fields : Bool
  fields : List String

/-- Python `repr` of a list of strings, e.g. `[ 'a', 'b' ]` without the
spaces. -/
def pyReprStrList (xs : List String) : String :=
  "[" ++ String.intercalate ", " (xs.map (fun s => sq ++ s ++ sq)) ++ "]"

/-- Embeds `check_decorator_fields_exist` (lines 78-98): for every decorator with
`check_fields` set, a non-empty `fields` tuple not containing `*`, every
named field must exist, else `PydanticUserError` with code
`validator-field` is raised. -/
def check_decorator_fields_exist (decorators : List DecInfo)
    (fields : List String) : Except PyErr Unit := do
  for dec in decorators do
    if dec.check_fields && !dec.fields.isEmpty && !dec.fields.contains "*" then
      for field in dec.fields do
        if !fields.contains field then
          throw (.userError
            ("Decorators defined with fields " ++ pyReprStrList dec.fields ++
             " but " ++ field ++ " not found in model")
            "validator-field")
  return ()

/-- The relevant data of a TypedDict class: its `__annotations__` in
declaration order, `__required_keys__` and `__total__`. -/
structure TypedDictCls where
  annotations : List (String × Desc)
  required_keys : List String
  total : Bool

/-- Embeds `GenerateSchema._typed_dict_schema` (lines 547-578).
`supportsTypedDict` is `_SUPPORTS_TYPEDDICT` (line 49,
`sys.version_info >= (3, 12)`); `originModule` is `origin.__module__`.
On an old runtime with a `typing.TypedDict`, `PydanticUserError` with code
`typing-typeddict` is raised; otherwise each annotation is compiled. -/
def typedDictSchema (supportsTypedDict : Bool) (tdCls : TypedDictCls)
    (originModule : String) : Except PyErr Schema := do
  if !supportsTypedDict && originModule == "typing" then
    throw (.userError
      ("Please use `typing_extensions.TypedDict` instead of " ++
       "`typing.TypedDict` on Python < 3.12.")
      "typing-typeddict")
  let fields ← tdCls.annotations.mapM fun p => do
    let fieldSchema ← generate_schema true p.2
    return (p.1, fieldSchema)
  return Schema.typedDict fields tdCls.required_keys tdCls.total

/-- Whether an association list holds an entry for a key. -/
def containsKey {α : Type} (k : String) : List (String × α) → Bool
  | [] => false
  | e :: rest => if e.1 = k then true else containsKey k rest

/-- Replace every entry whose key matches, keeping its position. -/
def replaceKey {α : Type} (kv : String × α) :
    List (String × α) → List (String × α)
  | [] => []
  | e :: rest => (if e.1 = kv.1 then kv else e) :: replaceKey kv rest

/-- Replace the value stored at an existing key in place, keeping its
position; append the pair when the key is absent.  This is the effect of
`d[k] = v` on a Python `dict` represented as an association list in
insertion order. -/
def setKey {α : Type} (d : List (String × α)) (kv : String × α) :
    List (String × α) :=
  if containsKey kv.1 d then replaceKey kv d else d ++ [kv]

/-- Python `dict.update`: fold `setKey` over the new entries. -/
def dictUpdate {α : Type} (old upd : List (String × α)) :
    List (String × α) :=
  upd.foldl setKey old

/-- The data of a `FieldInfo` that `_model_schema` consumes: its
annotation (a type descriptor). -/
structure FieldInfo where
  annot : Desc

/-- The four decorator collections of a `__pydantic_decorators__` object,
each represented by the declaration-ordered list of its entry names. -/
structure Decorators where
  field_validators : List String
  field_serializers : List String
  model_validators : List String
  model_serializers : List String

/-- One entry of `cls.__mro__[1:]`: the three optionally-present class
attributes that `_model_schema` reads off each base (absence of the
attribute models `hasattr` returning `False`). -/
structure BaseEntry where
  pydantic_fields : Option (List (String × FieldInfo))
  pydantic_computed_fields : Option (List (String × String))
  pydantic_decorators : Option Decorators

/-- A `BaseModel` subclass as consumed by `_model_schema`: its name, its
`__mro__[1:]` (nearest base first, `object` last) and its own three
`__pydantic_*` attributes. -/
structure ModelCls where
  name : String
  mroRest : List BaseEntry
  ownFields : List (String × FieldInfo)
  ownComputedFields : List (String × String)
  ownDecorators : Decorators

/-- The mutable collections of `_model_schema` lines 232-237. -/
structure ModelAcc where
  fields : List (String × FieldInfo)
  computedFields : List (String × String)
  validators : List String
  serializers : List String
  modelValidators : List String
  modelSerializers : List String

/-- The body of the `for base in reversed(cls.__mro__[1:])` loop
(lines 240-249): `dict.update` for the two field dicts, `list.extend` for
the four decorator lists. -/
def collectBase (acc : ModelAcc) (base : BaseEntry) : ModelAcc :=
  { fields :=
      match base.pydantic_fields with
      | some fs => dictUpdate acc.fields fs
      | Option.none => acc.fields
    computedFields :=
      match base.pydantic_computed_fields with
      | some cs => dictUpdate acc.computedFields cs
      | Option.none => acc.computedFields
    validators :=
      match base.pydantic_decorators with
      | some d => acc.validators ++ d.field_validators
      | Option.none => acc.validators
    serializers :=
      match base.pydantic_decorators with
      | some d => acc.serializers ++ d.field_serializers
      | Option.none => acc.serializers
    modelValidators :=
      match base.pydantic_decorators with
      | some d => acc.modelValidators ++ d.model_validators
      | Option.none => acc.modelValidators
    modelSerializers :=
      match base.pydantic_decorators with
      | some d => acc.modelSerializers ++ d.model_serializers
      | Option.none => acc.modelSerializers }

/-- The collection phase of `_model_schema` (lines 232-257): fold the
bases in `reversed(cls.__mro__[1:])` order, then update and extend with
the current class's own attributes (lines 252-257). -/
def collectModel (cls : ModelCls) : ModelAcc :=
  let acc := cls.mroRest.reverse.foldl collectBase
    ⟨[], [], [], [], [], []⟩
  { fields := dictUpdate acc.fields cls.ownFields
    computedFields := dictUpdate acc.computedFields cls.ownComputedFields
    validators := acc.validators ++ cls.ownDecorators.field_validators
    serializers := acc.serializers ++ cls.ownDecorators.field_serializers
    modelValidators :=
      acc.modelValidators ++ cls.ownDecorators.model_validators
    modelSerializers :=
      acc.modelSerializers ++ cls.ownDecorators.model_serializers }

/-- Embeds `GenerateSchema._model_schema` (lines 229-277): collect fields,
computed fields and decorators over the MRO, compile every field's
annotation with `generate_schema` (lines 260-263, exceptions propagate),
and build the model schema node (lines 266-275).  Note that the body
never consults `self.defs` (the `_Definitions` registry): no ref is
looked up, marked in progress, or registered. -/
def modelSchema (cls : ModelCls) : Except PyErr Schema := do
  let acc := collectModel cls
  let fieldSchemas ← acc.fields.mapM fun nf => do
    let fieldSchema ← generate_schema true nf.2.annot
    return (nf.1, fieldSchema)
  return Schema.model cls.name fieldSchemas acc.computedFields
    acc.validators acc.serializers acc.modelValidators acc.modelSerializers

/-- Embeds `_Definitions.get_schema_or_ref` (lines 800-820): the function is
declared `@contextmanager` but its body is the empty stub `pass`, so the
underlying generator yields nothing and entering the context manager
raises `RuntimeError("generator didn't yield")`. -/
def get_schema_or_ref (tp : Desc) : Except PyErr (String × Option Schema) :=
  .error (.runtimeError ("generator didn" ++ sq ++ "t yield"))

/-- A field-validator mode (`FieldValidatorModes`). -/
inductive VMode where
  | before
  | after
  | plain
  | wrap
  deriving DecidableEq, Repr

/-- The calling convention selected for a validator function at
resolution time. -/
inductive VInfo where
  | noInfo
  | withInfo
  deriving DecidableEq, Repr

/-- Embeds `_VALIDATOR_F_MATCH` (line 725): the mapping from (mode, convention)
to the `core_schema` builder applied to the function, the schema so far
and the field name. -/
def validatorFMatch (mode : VMode) (info : VInfo) (f : String)
    (schema : Schema) (fieldName : Option String) : Schema :=
  match mode, info with
  | .before, .noInfo => .noInfoBefore f schema
  | .after, .noInfo => .noInfoAfter f schema
  | .plain, .noInfo => .noInfoPlain f
  | .wrap, .noInfo => .noInfoWrap f schema
  | .before, .withInfo => .withInfoBefore f schema fieldName
  | .after, .withInfo => .withInfoAfter f schema fieldName
  | .plain, .withInfo => .withInfoPlain f fieldName
  | .wrap, .withInfo => .withInfoWrap f schema fieldName

/-- One field-validator decorator entry: the wrapped function (by name),
its mode and its resolved calling convention. -/
structure VDec where
  func : String
  mode : VMode
  info : VInfo

/-- Modelled from the spec: the body of `apply_validators`
(`_generate_schema.py` lines 727-738) is an empty stub (`pass`), so the
composition rule is taken from spec section 4.5 together with the
implemented `_VALIDATOR_F_MATCH` table (line 725): validators of a field
apply in declaration order, each one layered onto the schema built so far
through the `_VALIDATOR_F_MATCH` builder for its mode and calling
convention. -/
def apply_validators (schema : Schema) (validators : List VDec)
    (fieldName : Option String) : Schema :=
  validators.foldl
    (fun s v => validatorFMatch v.mode v.info v.func s fieldName) schema

/-- An executor environment resolving validator function names to the
pure functions they denote. -/
def FEnv : Type := String → PyVal → PyVal

/-- Executor semantics for the schema kinds the composition claims need
(the executor itself is an external collaborator, spec sections 1 and 6:
`execute(schema, input) -> Result`).  Leaves check the value tag;
`no_info_before_validator_function` transforms the input before the inner
schema runs; `no_info_after_validator_function` transforms the inner
schema's output; `no_info_plain_validator_function` replaces the inner
schema; the with-info variants behave likewise with the field name
supplied out of band.  Schema kinds whose execution the spec leaves out of
scope are mapped to an executor error. -/
def runSchema (env : FEnv) : Schema → PyVal → Except PyErr PyVal
  | .any, v => .ok v
  | .str, v =>
    match v with
    | .str _ => .ok v
    | _ => .error (.typeError "Input should be a valid string")
  | .int, v =>
    match v with
    | .int _ => .ok v
    | _ => .error (.typeError "Input should be a valid integer")
  | .bool, v =>
    match v with
    | .bool _ => .ok v
    | _ => .error (.typeError "Input should be a valid boolean")
  | .noneS, v =>
    match v with
    | .none => .ok v
    | _ => .error (.typeError "Input should be None")
  | .literal values, v =>
    if values.contains v then .ok v
    else .error (.typeError "Input should be one of the permitted values")
  | .noInfoBefore f inner, v => runSchema env inner (env f v)
  | .noInfoAfter f inner, v => (runSchema env inner v).map (env f)
  | .noInfoPlain f, v => .ok (env f v)
  | .withInfoBefore f inner _, v => runSchema env inner (env f v)
  | .withInfoAfter f inner _, v => (runSchema env inner v).map (env f)
  | .withInfoPlain f _, v => .ok (env f v)
  | _, _ => .error (.runtimeError "executor: schema kind not modelled here")

/-- First-match lookup on an insertion-ordered association list, the
observable content of a Python `dict`. -/
def lookupKey {α : Type} (k : String) : List (String × α) → Option α
  | [] => Option.none
  | e :: rest => if e.1 = k then some e.2 else lookupKey k rest

/-- The result of the first hook probe of
`_generate_schema_from_property`: what the
`__get_pydantic_core_schema__` attribute yields (nothing when the
attribute is absent or its call returned `None`). -/
def getHookProbe (obj : Desc) : Option Schema :=
  match obj.getHook with
  | some (some s) => some s
  | _ => Option.none

/-- The result of the second hook probe: what the
`__pydantic_core_schema__` attribute yields (nothing when the attribute is
absent or holds `None`). -/
def precomputedProbe (obj : Desc) : Option Schema :=
  match obj.precomputed with
  | some (some s) => some s
  | _ => Option.none

/-- The class object of a self-referential model `A` (a `BaseModel`
subclass), as it appears as a field annotation. -/
def descA : Desc := plain (Shape.cls "A")

/-- The class object of a model `B`, as it appears as a field annotation
of `A` in the mutual cycle `A` references `B` references `A`. -/
def descB : Desc := plain (Shape.cls "B")

/-- An `__mro__` entry with none of the three `__pydantic_*` attributes
(such as `BaseModel` itself or `object`). -/
def bareEntry : BaseEntry := ⟨Option.none, Option.none, Option.none⟩

/-- An empty `__pydantic_decorators__`. -/
def emptyDecs : Decorators := ⟨[], [], [], []⟩

/-- The model `class A(BaseModel)` with the single field `a: A`
(a direct self-reference). -/
def modelA : ModelCls :=
  ⟨"A", [bareEntry, bareEntry], [("a", ⟨descA⟩)], [], emptyDecs⟩

/-- The model `class A(BaseModel)` with the single field `b: B`, the
first half of a mutual cycle `A` references `B` references `A`. -/
def modelAtoB : ModelCls :=
  ⟨"A", [bareEntry, bareEntry], [("b", ⟨descB⟩)], [], emptyDecs⟩

/-- The alias `Literal[Literal[Literal[1, 2], "foo"], 5]`. -/
def litNested : Desc :=
  plain (Shape.literalAlias
    [LitElem.lit [LitElem.lit [LitElem.val (PyVal.int 1),
                               LitElem.val (PyVal.int 2)],
                  LitElem.val (PyVal.str "foo")],
     LitElem.val (PyVal.int 5)])

/-- The descriptor `ForwardRef("Undefined")`: an unresolved forward reference. -/
def fwdRefUndefined : Desc := plain (Shape.forwardRef "Undefined")

/-- A plain user class with no hooks, matching the classifier's final
`object` case. -/
def fooCls : Desc := plain (Shape.cls "Foo")

/-- The `Ellipsis` singleton, an input matching no classification case. -/
def ellipsisDesc : Desc := plain Shape.ellipsis

/-- A type whose `__get_pydantic_core_schema__` call returns `None` while
a `__pydantic_core_schema__` attribute is also present. -/
def dOverrideNone : Desc :=
  Desc.mk (some Option.none) (some (some (Schema.custom 1)))
    (Shape.cls "WithHooks")

/-- A type whose `__get_pydantic_core_schema__` call returns a schema
while a different `__pydantic_core_schema__` attribute is also present. -/
def dOverrideWins : Desc :=
  Desc.mk (some (some (Schema.custom 7))) (some (some (Schema.custom 8)))
    (Shape.cls "WithHooks")

/-- The alias `tuple[int, ...]`. -/
def tupIntVariadic : Desc :=
  plain (Shape.genericAlias "tuple" [plain Shape.clsInt, ellipsisDesc])

/-- The alias `tuple[int, str]`. -/
def tupIntStr : Desc :=
  plain (Shape.genericAlias "tuple" [plain Shape.clsInt, plain Shape.clsStr])

/-- A bare `tuple` alias carrying no arguments. -/
def tupBareAlias : Desc := plain (Shape.genericAlias "tuple" [])

/-- A base class carrying fields `x: int`, `y: bool` and a field
validator named `v`. -/
def baseD : BaseEntry :=
  ⟨some [("x", ⟨plain Shape.clsInt⟩), ("y", ⟨plain Shape.clsBool⟩)],
   some [], some ⟨["v"], [], [], []⟩⟩

/-- A derived model class overriding field `x` with `x: str` and
declaring its own field validator also named `v`. -/
def derivedD : ModelCls :=
  ⟨"D", [baseD, bareEntry], [("x", ⟨plain Shape.clsStr⟩)], [],
   ⟨["v"], [], [], []⟩⟩

/-- A decorator referencing the nonexistent field name `nope`. -/
def decNope : DecInfo := ⟨true, ["nope"]⟩

/-- The `field_validators` contribution of one `__mro__` entry (empty when
the base has no `__pydantic_decorators__` attribute). -/
def baseFieldValidators (b : BaseEntry) : List String :=
  match b.pydantic_decorators with
  | some d => d.field_validators
  | Option.none => []

/-- The `field_serializers` contribution of one `__mro__` entry. -/
def baseFieldSerializers (b : BaseEntry) : List String :=
  match b.pydantic_decorators with
  | some d => d.field_serializers
  | Option.none => []

/-- The `model_validators` contribution of one `__mro__` entry. -/
def baseModelValidators (b : BaseEntry) : List String :=
  match b.pydantic_decorators with
  | some d => d.model_validators
  | Option.none => []

/-- The `model_serializers` contribution of one `__mro__` entry. -/
def baseModelSerializers (b : BaseEntry) : List String :=
  match b.pydantic_decorators with
  | some d => d.model_serializers
  | Option.none => []

/-- The `__pydantic_fields__` of one `__mro__` entry (empty when the base
has no such attribute, so that updating with it is a no-op). -/
def baseFieldsOf (b : BaseEntry) : List (String × FieldInfo) :=
  match b.pydantic_fields with
  | some fs => fs
  | Option.none => []

/-- The `__pydantic_computed_fields__` of one `__mro__` entry. -/
def baseComputedOf (b : BaseEntry) : List (String × String) :=
  match b.pydantic_computed_fields with
  | some cs => cs
  | Option.none => []

/-- Concatenation of a list of lists, in order. -/
def concatAll {α : Type} : List (List α) → List α
  | [] => []
  | l :: rest => l ++ concatAll rest

/-- The first present value in a list of optional values. -/
def firstSome {α : Type} : List (Option α) → Option α
  | [] => Option.none
  | Option.none :: rest => firstSome rest
  | some v :: _ => some v

theorem lookupKey_of_containsKey_eq_false {α : Type} (k : String)
    (d : List (String × α)) (h : containsKey k d = false) :
    lookupKey k d = Option.none := by
  induction d with
  | nil => rfl
  | cons e rest ih =>
    rw [containsKey] at h
    by_cases he : e.1 = k
    · rw [if_pos he] at h; cases h
    · rw [if_neg he] at h
      rw [lookupKey, if_neg he, ih h]

theorem lookupKey_append {α : Type} (k : String)
    (l₁ l₂ : List (String × α)) :
    lookupKey k (l₁ ++ l₂) =
      (lookupKey k l₁).orElse (fun _ => lookupKey k l₂) := by
  induction l₁ with
  | nil => rfl
  | cons e rest ih =>
    by_cases h : e.1 = k
    · simp [lookupKey, h]
    · simp [lookupKey, h, ih]

theorem lookupKey_replaceKey_self {α : Type} (k : String) (v : α)
    (d : List (String × α)) (h : containsKey k d = true) :
    lookupKey k (replaceKey (k, v) d) = some v := by
  induction d with
  | nil => cases h
  | cons e rest ih =>
    rw [containsKey] at h
    by_cases he : e.1 = k
    · simp [replaceKey, lookupKey, he]
    · rw [if_neg he] at h
      rw [replaceKey, lookupKey]
      simp only [if_neg he]
      exact ih h

theorem lookupKey_setKey_self {α : Type} (k : String) (v : α)
    (d : List (String × α)) : lookupKey k (setKey d (k, v)) = some v := by
  rw [setKey]
  by_cases h : containsKey k d = true
  · simp only [h, if_true]
    exact lookupKey_replaceKey_self k v d h
  · have h' : containsKey k d = false := by simpa using h
    simp only [h', Bool.false_eq_true, if_false]
    rw [lookupKey_append, lookupKey_of_containsKey_eq_false k d h']
    simp [lookupKey]

theorem lookupKey_replaceKey_other {α : Type} (k k' : String) (v : α)
    (d : List (String × α)) (hne : k' ≠ k) :
    lookupKey k' (replaceKey (k, v) d) = lookupKey k' d := by
  induction d with
  | nil => rfl
  | cons e rest ih =>
    by_cases he : e.1 = k
    · have hek' : e.1 ≠ k' := by rw [he]; exact fun hk => hne hk.symm
      rw [replaceKey, lookupKey]
      simp only [if_pos he]
      rw [if_neg (fun hk : k = k' => hne hk.symm), lookupKey, if_neg hek', ih]
    · rw [replaceKey, lookupKey]
      simp only [if_neg he]
      rw [lookupKey]
      by_cases he' : e.1 = k'
      · rw [if_pos he', if_pos he']
      · rw [if_neg he', if_neg he', ih]

theorem lookupKey_setKey_other {α : Type} (k k' : String) (v : α)
    (d : List (String × α)) (hne : k' ≠ k) :
    lookupKey k' (setKey d (k, v)) = lookupKey k' d := by
  rw [setKey]
  by_cases h : containsKey k d = true
  · simp only [h, if_true]
    exact lookupKey_replaceKey_other k k' v d hne
  · have h' : containsKey k d = false := by simpa using h
    simp only [h', Bool.false_eq_true, if_false]
    rw [lookupKey_append]
    have hkk : ¬k = k' := fun hk => hne hk.symm
    have : lookupKey k' [(k, v)] = (Option.none : Option α) := by
      simp [lookupKey, hkk]
    rw [this]
    cases lookupKey k' d <;> rfl

theorem lookupKey_eq_none_of_not_mem {α : Type} (k : String)
    (d : List (String × α)) (h : k ∉ d.map Prod.fst) :
    lookupKey k d = Option.none := by
  induction d with
  | nil => rfl
  | cons e rest ih =>
    simp only [List.map_cons, List.mem_cons, not_or] at h
    rw [lookupKey, if_neg (fun he : e.1 = k => h.1 he.symm), ih h.2]

theorem lookupKey_dictUpdate_of_none {α : Type} (k : String)
    (old upd : List (String × α)) (h : lookupKey k upd = Option.none) :
    lookupKey k (dictUpdate old upd) = lookupKey k old := by
  induction upd generalizing old with
  | nil => rfl
  | cons e rest ih =>
    rw [lookupKey] at h
    by_cases he : e.1 = k
    · rw [if_pos he] at h; cases h
    · rw [if_neg he] at h
      show lookupKey k (dictUpdate (setKey old e) rest) = lookupKey k old
      rw [ih (setKey old e) h]
      have : (e.1, e.2) = e := rfl
      rw [← this]
      exact lookupKey_setKey_other e.1 k e.2 old (fun hk => he hk.symm)

theorem lookupKey_dictUpdate_of_some {α : Type} (k : String) (v : α)
    (old upd : List (String × α)) (hnd : (upd.map Prod.fst).Nodup)
    (h : lookupKey k upd = some v) :
    lookupKey k (dictUpdate old upd) = some v := by
  induction upd generalizing old with
  | nil => cases h
  | cons e rest ih =>
    rw [List.map_cons, List.nodup_cons] at hnd
    rw [lookupKey] at h
    by_cases he : e.1 = k
    · rw [if_pos he] at h
      injection h with hv
      subst hv
      have hrest : lookupKey k rest = Option.none :=
        lookupKey_eq_none_of_not_mem k rest (he ▸ hnd.1)
      show lookupKey k (dictUpdate (setKey old e) rest) = some e.2
      rw [lookupKey_dictUpdate_of_none k (setKey old e) rest hrest]
      have : (e.1, e.2) = e := rfl
      rw [← this, he]
      exact lookupKey_setKey_self k e.2 old
    · rw [if_neg he] at h
      exact ih (setKey old e) hnd.2 h

theorem collectBase_eq (acc : ModelAcc) (b : BaseEntry) :
    collectBase acc b =
      ⟨dictUpdate acc.fields (baseFieldsOf b),
       dictUpdate acc.computedFields (baseComputedOf b),
       acc.validators ++ baseFieldValidators b,
       acc.serializers ++ baseFieldSerializers b,
       acc.modelValidators ++ baseModelValidators b,
       acc.modelSerializers ++ baseModelSerializers b⟩ := by
  rcases b with ⟨bf, bc, bd⟩
  rcases bf with _ | bf <;> rcases bc with _ | bc <;> rcases bd with _ | bd <;>
    simp [collectBase, baseFieldsOf, baseComputedOf, baseFieldValidators,
      baseFieldSerializers, baseModelValidators, baseModelSerializers,
      dictUpdate]

theorem foldl_collectBase_eq (bases : List BaseEntry) (acc : ModelAcc) :
    bases.foldl collectBase acc =
      ⟨bases.foldl (fun fs b => dictUpdate fs (baseFieldsOf b)) acc.fields,
       bases.foldl (fun cs b => dictUpdate cs (baseComputedOf b))
         acc.computedFields,
       acc.validators ++ concatAll (bases.map baseFieldValidators),
       acc.serializers ++ concatAll (bases.map baseFieldSerializers),
       acc.modelValidators ++ concatAll (bases.map baseModelValidators),
       acc.modelSerializers ++ concatAll (bases.map baseModelSerializers)⟩ := by
  induction bases generalizing acc with
  | nil => simp [concatAll]
  | cons b rest ih =>
    rw [List.foldl_cons, ih, collectBase_eq]
    simp [concatAll, List.append_assoc]

theorem lookupKey_foldl_dictUpdate {α : Type}
    (g : BaseEntry → List (String × α)) (k : String)
    (bases : List BaseEntry)
    (hnd : ∀ b ∈ bases, ((g b).map Prod.fst).Nodup) :
    lookupKey k
        (bases.reverse.foldl (fun fs b => dictUpdate fs (g b)) []) =
      firstSome (bases.map (fun b => lookupKey k (g b))) := by
  induction bases with
  | nil => rfl
  | cons b rest ih =>
    rw [List.reverse_cons, List.foldl_append]
    simp only [List.foldl_cons, List.foldl_nil]
    have hb := hnd b (List.mem_cons_self b rest)
    have hrest : ∀ b' ∈ rest, ((g b').map Prod.fst).Nodup :=
      fun b' hb' => hnd b' (List.mem_cons_of_mem b hb')
    cases hgb : lookupKey k (g b) with
    | some v =>
      rw [lookupKey_dictUpdate_of_some k v _ _ hb hgb]
      simp [firstSome, hgb]
    | none =>
      rw [lookupKey_dictUpdate_of_none k _ _ hgb, ih hrest]
      simp [firstSome, hgb]

theorem length_of_mapM_ok {ε α β : Type} (f : α → Except ε β) (l : List α)
    (r : List β) (h : l.mapM f = Except.ok r) : r.length = l.length := by
  induction l generalizing r with
  | nil =>
    simp only [List.mapM_nil, pure] at h
    cases h
    rfl
  | cons a rest ih =>
    rw [List.mapM_cons] at h
    cases hfa : f a with
    | error e => rw [hfa] at h; cases h
    | ok b =>
      rw [hfa] at h
      cases hrest : rest.mapM f with
      | error e =>
        rw [hrest] at h
        cases h
      | ok bs =>
        rw [hrest] at h
        have : b :: bs = r := by
          cases h
          rfl
        subst this
        simp [ih bs hrest]

/-- C1: on a cyclic model graph the compiler was claimed to terminate with
exactly one `definition_ref` per back-edge, a revisited in-progress ref
yielding a `definition_ref`.  In the code, `_model_schema` compiles each
field annotation through `generate_schema`, which for every class object
reaches `match_type` line 335 and fails with `NameError` on the
runtime-undefined name `BaseModel`; no `definition_ref` is ever produced,
`_model_schema` never consults the `_Definitions` registry, and the
registry's `get_schema_or_ref` is itself an empty stub whose context
manager raises `RuntimeError`.  Both the direct self-reference `A -> A`
and the first step of the mutual cycle `A -> B` fail this way. -/
theorem c1_cyclic_model_no_definition_ref :
    modelSchema modelA = Except.error (PyErr.nameError "BaseModel")
    ∧ modelSchema modelAtoB = Except.error (PyErr.nameError "BaseModel")
    ∧ get_schema_or_ref descA =
        Except.error
          (PyErr.runtimeError ("generator didn" ++ sq ++ "t yield")) :=
  ⟨rfl, rfl, rfl⟩

/-- C4: compiling `Literal[Literal[Literal[1, 2], "foo"], 5]` was claimed
to yield one literal schema over the fully flattened member list.  The
`_literal_schema` builder instead raises `TypeError` from
`isinstance(arg, Literal)` on its first loop iteration (a `typing` special
form cannot be used with `isinstance`), while the repository's own
`all_literal_values` helper (never called by the builder) computes exactly
the claimed full flattening; moreover `match_type` has no `Literal` branch
at all, so `generate_schema` on the alias raises
`PydanticSchemaGenerationError`. -/
theorem c4_nested_literal_not_flattened :
    literalSchema litNested =
      Except.error
        (PyErr.typeError "typing.Literal cannot be used with isinstance()")
    ∧ all_literal_values litNested =
        [PyVal.int 1, PyVal.int 2, PyVal.str "foo", PyVal.int 5]
    ∧ matchType litNested =
        Except.error (PydanticSchemaGenerationError
          ("Unable to generate schema for " ++ pyRepr litNested)) := by
  refine ⟨rfl, ?_, rfl⟩
  simp [litNested, all_literal_values, allLiteralValuesList, plain,
    Desc.shape]

/-- C6: compiling an unresolved forward reference was claimed to raise
`PydanticUndefinedAnnotation` (the recoverable `NameError` subclass with
code `undefined-annotation`, which errors.py indeed defines this way) and
never the fatal error.  The `ForwardRef` branch of `match_type`
(line 356) instead calls `self._forward_ref_schema`, a method defined
nowhere in the class, so `AttributeError` is raised. -/
theorem c6_forward_ref_raises_attribute_error :
    matchType fwdRefUndefined =
      Except.error (PyErr.attributeError "_forward_ref_schema")
    ∧ generate_schema true fwdRefUndefined =
        Except.error (PyErr.attributeError "_forward_ref_schema")
    ∧ (PydanticUndefinedAnnotErr "Undefined" "msg").errorCode =
        some "undefined-annotation"
    ∧ (PydanticUndefinedAnnotErr "Undefined" "msg").isNameErrorClass =
        true :=
  ⟨rfl, rfl, rfl, rfl⟩

/-- C7: for inputs matching no classification case the claim requires a
`PydanticSchemaGenerationError` naming the offending type and no earlier
`NameError`/`TypeError` from any branch.  The fallback itself behaves as
claimed for non-`type` inputs (here `Ellipsis`), but every `type` input
(here a plain class `Foo`) fails at the very first branch, line 335, with
`NameError` on the runtime-undefined name `BaseModel`. -/
theorem c7_unknown_type_error_path :
    matchType fooCls = Except.error (PyErr.nameError "BaseModel")
    ∧ (PyErr.nameError "BaseModel").errorCode = Option.none
    ∧ matchType ellipsisDesc =
        Except.error (PydanticSchemaGenerationError
          "Unable to generate schema for Ellipsis")
    ∧ (PydanticSchemaGenerationError
        "Unable to generate schema for Ellipsis").errorCode =
        some "schema-for-unknown-type" :=
  ⟨rfl, rfl, rfl, rfl⟩

/-- C8: every `PydanticUserError` the compiler raises was claimed to carry
a code belonging to the `PydanticErrorCodes` literal set.  The two raise
sites in `_generate_schema.py` use the codes `validator-field`
(`check_decorator_fields_exist`, line 97) and `typing-typeddict`
(`_typed_dict_schema`, line 566), and neither string is a member of
`PydanticErrorCodes`. -/
theorem c8_user_error_codes_not_in_registry :
    check_decorator_fields_exist [decNope] ["a", "b"] =
      Except.error (PyErr.userError
        ("Decorators defined with fields " ++ pyReprStrList ["nope"] ++
         " but nope not found in model") "validator-field")
    ∧ typedDictSchema false ⟨[], [], true⟩ "typing" =
        Except.error (PyErr.userError
          ("Please use `typing_extensions.TypedDict` instead of " ++
           "`typing.TypedDict` on Python < 3.12.") "typing-typeddict")
    ∧ "validator-field" ∉ pydanticErrorCodes
    ∧ "typing-typeddict" ∉ pydanticErrorCodes := by
  refine ⟨rfl, rfl, ?_, ?_⟩ <;> decide

/-- C2, counterexample: the claim says the precomputed
`__pydantic_core_schema__` attribute is consulted only when the override
function is absent.  On a type whose present
`__get_pydantic_core_schema__` call returns `None`,
`_generate_schema_from_property` nevertheless consults and returns the
precomputed attribute. -/
theorem c2_counterexample_precomputed_consulted :
    dOverrideNone.getHook = some Option.none
    ∧ dOverrideNone.precomputed = some (some (Schema.custom 1))
    ∧ generateSchemaFromProperty dOverrideNone = some (Schema.custom 1) :=
  ⟨rfl, rfl, rfl⟩

/-- C2, amended: when the override function returns a non-`None` schema,
that result is the final schema, wins over any precomputed attribute
(the result does not depend on it) and short-circuits classification in
`generate_schema`; the precomputed attribute is consulted when the
override function is absent or returns `None`. -/
theorem c2_amended_override_result_wins (obj obj2 : Desc) (s : Schema)
    (h : obj.getHook = some (some s))
    (h2 : obj2.getHook = Option.none ∨ obj2.getHook = some Option.none) :
    generateSchemaFromProperty obj = some s
    ∧ generate_schema true obj = Except.ok s
    ∧ (∀ pre, generateSchemaFromProperty
        (Desc.mk obj.getHook pre obj.shape) = some s)
    ∧ generateSchemaFromProperty obj2 = precomputedProbe obj2 := by
  rcases obj with ⟨g, p, sh⟩
  simp only [Desc.getHook] at h
  subst h
  refine ⟨rfl, rfl, fun pre => rfl, ?_⟩
  rcases h2 with h2 | h2 <;>
    simp [generateSchemaFromProperty, precomputedProbe, h2]

theorem c2_amended_witness :
    generateSchemaFromProperty dOverrideWins = some (Schema.custom 7)
    ∧ generate_schema true dOverrideWins = Except.ok (Schema.custom 7)
    ∧ generateSchemaFromProperty
        (Desc.mk dOverrideWins.getHook (some (some (Schema.custom 9)))
          dOverrideWins.shape) = some (Schema.custom 7)
    ∧ generateSchemaFromProperty dOverrideNone =
        precomputedProbe dOverrideNone := by
  have h := c2_amended_override_result_wins dOverrideWins dOverrideNone
    (Schema.custom 7) rfl (Or.inr rfl)
  exact ⟨h.1, h.2.1, h.2.2.1 (some (some (Schema.custom 9))), h.2.2.2⟩

/-- C10: when the override function exists but returns `None`, the hook
probe falls back to the precomputed attribute; the probe yields nothing
exactly when both attributes yield nothing; and in that case
`generate_schema` proceeds with the structural classification cases
(so `generate_schema` itself never returns the hook-absent outcome). -/
theorem c10_hook_fallback_chain (obj : Desc)
    (h : obj.getHook = some Option.none) :
    generateSchemaFromProperty obj = precomputedProbe obj
    ∧ (∀ obj' : Desc, generateSchemaFromProperty obj' = Option.none ↔
        (getHookProbe obj' = Option.none
         ∧ precomputedProbe obj' = Option.none))
    ∧ (∀ obj' : Desc, generateSchemaFromProperty obj' = Option.none →
        generate_schema true obj' = generateSchemaRest obj') := by
  refine ⟨?_, ?_, ?_⟩
  · simp [generateSchemaFromProperty, precomputedProbe, h]
  · intro obj'
    rcases obj' with ⟨_ | (_ | s), _ | (_ | t), sh⟩ <;>
      simp [generateSchemaFromProperty, getHookProbe, precomputedProbe,
        Desc.getHook, Desc.precomputed]
  · intro obj' h'
    simp [generate_schema, h']

theorem c10_witness :
    generateSchemaFromProperty dOverrideNone =
      precomputedProbe dOverrideNone
    ∧ (generateSchemaFromProperty fooCls = Option.none ↔
        (getHookProbe fooCls = Option.none
         ∧ precomputedProbe fooCls = Option.none))
    ∧ generate_schema true fooCls = generateSchemaRest fooCls := by
  have h := c10_hook_fallback_chain dOverrideNone rfl
  exact ⟨h.1, h.2.1 fooCls, h.2.2 fooCls rfl⟩

/-- C5: the tuple builder maps an empty argument list to a variable-length
tuple of `any`; exactly two arguments with the variadic marker second to a
variable-length tuple over the compiled first argument; any other
non-empty argument list to a positional tuple with one compiled item
schema per argument (so on success the arity equals the argument count);
and the unparameterized `tuple` class is mapped by `generate_schema`
directly to a variable-length tuple of `any`. -/
theorem c5_tuple_schema (t0 t1 t2 : Desc) (a b : Desc)
    (h0 : getArgs t0 = [])
    (h1 : getArgs t1 = [a, b]) (hb : b.shape = Shape.ellipsis)
    (h2 : getArgs t2 ≠ []) (h2v : isVariadicPair (getArgs t2) = false) :
    tupleSchema t0 = Except.ok (Schema.tupleVariable Schema.any)
    ∧ tupleSchema t1 = (generate_schema true a).map Schema.tupleVariable
    ∧ tupleSchema t2 =
        ((getArgs t2).mapM (generate_schema true)).map Schema.tuplePositional
    ∧ (∀ ss, (getArgs t2).mapM (generate_schema true) = Except.ok ss →
        ss.length = (getArgs t2).length)
    ∧ generate_schema true (plain Shape.clsTuple) =
        Except.ok (Schema.tupleVariable Schema.any) := by
  refine ⟨?_, ?_, ?_, ?_, rfl⟩
  · simp [tupleSchema, h0]
  · have hv : isVariadicPair [a, b] = true := by
      simp [isVariadicPair, hb]
    simp only [tupleSchema, h1, hv, if_true]
    cases hga : generate_schema true a <;>
      simp [hga, Except.map, Except.bind, bind, pure, Except.pure]
  · rcases hargs : getArgs t2 with _ | ⟨a2, rest2⟩
    · exact absurd hargs h2
    · rw [hargs] at h2v
      simp only [tupleSchema, hargs, h2v, Bool.false_eq_true, if_false]
      cases hm : (a2 :: rest2).mapM (generate_schema true) <;>
        simp [hm, Except.map, Except.bind, bind, pure, Except.pure]
  · intro ss hss
    exact length_of_mapM_ok (generate_schema true) (getArgs t2) ss hss

theorem c5_tuple_schema_witness :
    tupleSchema tupBareAlias = Except.ok (Schema.tupleVariable Schema.any)
    ∧ tupleSchema tupIntVariadic =
        (generate_schema true (plain Shape.clsInt)).map Schema.tupleVariable
    ∧ tupleSchema tupIntStr =
        ((getArgs tupIntStr).mapM
          (generate_schema true)).map Schema.tuplePositional
    ∧ ([Schema.int, Schema.str] : List Schema).length =
        (getArgs tupIntStr).length
    ∧ generate_schema true (plain Shape.clsTuple) =
        Except.ok (Schema.tupleVariable Schema.any) := by
  have h := c5_tuple_schema tupBareAlias tupIntVariadic tupIntStr
    (plain Shape.clsInt) ellipsisDesc rfl rfl rfl
    (by intro hc; exact List.noConfusion hc) rfl
  exact ⟨h.1, h.2.1, h.2.2.1, h.2.2.2.1 [Schema.int, Schema.str] rfl,
    h.2.2.2.2⟩

/-- C3, counterexample: the claim says a derived validator of the same
name fully replaces the base class's.  Compiling a derived class whose
base declares a field validator `v` and which declares its own validator
`v` keeps both entries (`extend`, not keyed replacement): the compiled
model carries the validator list `[v, v]`, not `[v]`.  The field override
itself does behave as claimed (`x` appears once, with the derived
annotation's schema). -/
theorem c3_counterexample_validator_not_replaced :
    modelSchema derivedD = Except.ok (Schema.model "D"
      [("x", Schema.str), ("y", Schema.bool)] [] ["v", "v"] [] [] [])
    ∧ (["v", "v"] : List String) ≠ ["v"] :=
  ⟨rfl, by decide⟩

/-- C3, amended: for every model class (arbitrary `__mro__[1:]`, each
class dict having distinct keys), fields and computed fields are collected
in base-to-derived MRO order with `dict.update` semantics — a same-named
derived field (or computed field) fully replaces the base's, and a field
not declared on the class itself resolves to the nearest MRO base that
declares it, so every base field not overridden is included; the four
decorator collections (field validators, field serializers, model
validators, model serializers) are collected by list concatenation
(`extend`) in base-to-derived MRO order with the class's own entries
appended last, so a same-named derived validator is appended after the
base's rather than replacing it. -/
theorem c3_amended_fields_replace_validators_concat (cls : ModelCls)
    (hndOwn : (cls.ownFields.map Prod.fst).Nodup)
    (hndOwnC : (cls.ownComputedFields.map Prod.fst).Nodup)
    (hndBases : ∀ b ∈ cls.mroRest, ((baseFieldsOf b).map Prod.fst).Nodup)
    (hndBasesC : ∀ b ∈ cls.mroRest,
      ((baseComputedOf b).map Prod.fst).Nodup) :
    (∀ k v, lookupKey k cls.ownFields = some v →
        lookupKey k (collectModel cls).fields = some v)
    ∧ (∀ k, lookupKey k cls.ownFields = Option.none →
        lookupKey k (collectModel cls).fields =
          firstSome (cls.mroRest.map (fun b => lookupKey k (baseFieldsOf b))))
    ∧ (∀ k v, lookupKey k cls.ownComputedFields = some v →
        lookupKey k (collectModel cls).computedFields = some v)
    ∧ (∀ k, lookupKey k cls.ownComputedFields = Option.none →
        lookupKey k (collectModel cls).computedFields =
          firstSome (cls.mroRest.map (fun b => lookupKey k (baseComputedOf b))))
    ∧ (collectModel cls).validators =
        concatAll (cls.mroRest.reverse.map baseFieldValidators)
          ++ cls.ownDecorators.field_validators
    ∧ (collectModel cls).serializers =
        concatAll (cls.mroRest.reverse.map baseFieldSerializers)
          ++ cls.ownDecorators.field_serializers
    ∧ (collectModel cls).modelValidators =
        concatAll (cls.mroRest.reverse.map baseModelValidators)
          ++ cls.ownDecorators.model_validators
    ∧ (collectModel cls).modelSerializers =
        concatAll (cls.mroRest.reverse.map baseModelSerializers)
          ++ cls.ownDecorators.model_serializers := by
  have hacc := foldl_collectBase_eq cls.mroRest.reverse
    ⟨[], [], [], [], [], []⟩
  have hF : (collectModel cls).fields =
      dictUpdate
        (cls.mroRest.reverse.foldl
          (fun fs b => dictUpdate fs (baseFieldsOf b)) [])
        cls.ownFields := by
    show dictUpdate (cls.mroRest.reverse.foldl collectBase
      ⟨[], [], [], [], [], []⟩).fields cls.ownFields = _
    rw [hacc]
  have hC : (collectModel cls).computedFields =
      dictUpdate
        (cls.mroRest.reverse.foldl
          (fun cs b => dictUpdate cs (baseComputedOf b)) [])
        cls.ownComputedFields := by
    show dictUpdate (cls.mroRest.reverse.foldl collectBase
      ⟨[], [], [], [], [], []⟩).computedFields cls.ownComputedFields = _
    rw [hacc]
  refine ⟨?_, ?_, ?_, ?_, ?_, ?_, ?_, ?_⟩
  · intro k v hkv
    rw [hF]
    exact lookupKey_dictUpdate_of_some k v _ _ hndOwn hkv
  · intro k hk
    rw [hF, lookupKey_dictUpdate_of_none k _ _ hk]
    exact lookupKey_foldl_dictUpdate baseFieldsOf k cls.mroRest hndBases
  · intro k v hkv
    rw [hC]
    exact lookupKey_dictUpdate_of_some k v _ _ hndOwnC hkv
  · intro k hk
    rw [hC, lookupKey_dictUpdate_of_none k _ _ hk]
    exact lookupKey_foldl_dictUpdate baseComputedOf k cls.mroRest hndBasesC
  · show (cls.mroRest.reverse.foldl collectBase
        ⟨[], [], [], [], [], []⟩).validators
        ++ cls.ownDecorators.field_validators = _
    rw [hacc]
    rfl
  · show (cls.mroRest.reverse.foldl collectBase
        ⟨[], [], [], [], [], []⟩).serializers
        ++ cls.ownDecorators.field_serializers = _
    rw [hacc]
    rfl
  · show (cls.mroRest.reverse.foldl collectBase
        ⟨[], [], [], [], [], []⟩).modelValidators
        ++ cls.ownDecorators.model_validators = _
    rw [hacc]
    rfl
  · show (cls.mroRest.reverse.foldl collectBase
        ⟨[], [], [], [], [], []⟩).modelSerializers
        ++ cls.ownDecorators.model_serializers = _
    rw [hacc]
    rfl

theorem c3_amended_witness :
    lookupKey "x" (collectModel derivedD).fields =
      some (⟨plain Shape.clsStr⟩ : FieldInfo)
    ∧ lookupKey "y" (collectModel derivedD).fields =
        firstSome (derivedD.mroRest.map
          (fun b => lookupKey "y" (baseFieldsOf b)))
    ∧ lookupKey "c" (collectModel derivedD).computedFields =
        firstSome (derivedD.mroRest.map
          (fun b => lookupKey "c" (baseComputedOf b)))
    ∧ (collectModel derivedD).validators =
        concatAll (derivedD.mroRest.reverse.map baseFieldValidators)
          ++ derivedD.ownDecorators.field_validators
    ∧ (collectModel derivedD).serializers =
        concatAll (derivedD.mroRest.reverse.map baseFieldSerializers)
          ++ derivedD.ownDecorators.field_serializers
    ∧ (collectModel derivedD).modelValidators =
        concatAll (derivedD.mroRest.reverse.map baseModelValidators)
          ++ derivedD.ownDecorators.model_validators
    ∧ (collectModel derivedD).modelSerializers =
        concatAll (derivedD.mroRest.reverse.map baseModelSerializers)
          ++ derivedD.ownDecorators.model_serializers := by
  have h := c3_amended_fields_replace_validators_concat derivedD
    (by decide) (by decide)
    (by intro b hb
        simp only [derivedD, List.mem_cons, List.not_mem_nil, or_false] at hb
        rcases hb with rfl | rfl <;> decide)
    (by intro b hb
        simp only [derivedD, List.mem_cons, List.not_mem_nil, or_false] at hb
        rcases hb with rfl | rfl <;> decide)
  exact ⟨h.1 "x" _ rfl, h.2.1 "y" rfl, h.2.2.2.1 "c" rfl, h.2.2.2.2.1,
    h.2.2.2.2.2.1, h.2.2.2.2.2.2.1, h.2.2.2.2.2.2.2⟩

/-- C9: for two validators declared in order `v1`, `v2`, both with
mode `after` (no-info convention), the composed schema nests `v1`
innermost and executing it is equivalent to running the inner schema, then
applying `v1` to its output, then `v2` to the result of `v1`.  Modelled
from the spec for the stubbed `apply_validators`, over the implemented
`_VALIDATOR_F_MATCH` builder table and the executor semantics of the
after-validator wrapper. -/
theorem c9_after_validators_compose_in_declaration_order (env : FEnv)
    (inner : Schema) (f1 f2 : String) (x : PyVal) :
    apply_validators inner
        [⟨f1, VMode.after, VInfo.noInfo⟩, ⟨f2, VMode.after, VInfo.noInfo⟩]
        Option.none
      = Schema.noInfoAfter f2 (Schema.noInfoAfter f1 inner)
    ∧ runSchema env (apply_validators inner
        [⟨f1, VMode.after, VInfo.noInfo⟩, ⟨f2, VMode.after, VInfo.noInfo⟩]
        Option.none) x
      = (runSchema env inner x).map (fun y => env f2 (env f1 y)) := by
  constructor
  · rfl
  · show runSchema env
        (Schema.noInfoAfter f2 (Schema.noInfoAfter f1 inner)) x = _
    cases h : runSchema env inner x <;> simp [runSchema, h, Except.map]

end PydanticGen
